import Mathlib

/-!
Shallow embedding of the synchronization primitives of
`atomics_and_locks_book`: the unified one-shot channel, the split
sender/receiver channel (src/ch5.rs), and the spin lock with its RAII
guard (src/ch4.rs).

Atomic cells are modelled as plain fields; each operation is a pure
state transformer translated from the Rust source. A Rust `panic!` is
modelled as `Except.error` carrying the state at the moment of the
panic (the state after any atomic swap that already happened).
The `MaybeUninit<T>` slot is modelled as `Option T`: `none` is the
uninitialized state, and a read/drop of an uninitialized slot
(undefined behavior in the source) surfaces as `none`.
-/

namespace AtomicsBook

/-- Memory orderings of the atomic operations, as named in the source. -/
inductive MemoryOrdering : Type where
  | Relaxed : MemoryOrdering
  | Acquire : MemoryOrdering
  | Release : MemoryOrdering
deriving DecidableEq

/-! ## Unified one-shot channel (src/ch5.rs, `OneshotChannel<T>`) -/

/-- State of `OneshotChannel<T>`: the `UnsafeCell<MaybeUninit<T>>` slot
(`none` = uninitialized) and the two `AtomicBool` flags. -/
structure OneshotChannel (T : Type) : Type where
  message : Option T
  is_message_in_use : Bool
  is_message_ready : Bool
deriving DecidableEq

/-- Source `OneshotChannel::new`: uninitialized slot, both flags false. -/
def OneshotChannel.new {T : Type} : OneshotChannel T :=
  { message := none, is_message_in_use := false, is_message_ready := false }

/-- Source `OneshotChannel::is_message_ready`: a relaxed load. It returns
the current flag value together with the (unmodified) channel state. -/
def OneshotChannel.load_is_message_ready {T : Type} (c : OneshotChannel T) :
    Bool × OneshotChannel T :=
  (c.is_message_ready, c)

/-- Source `OneshotChannel::send`: swap `is_message_in_use` to true
(relaxed); if it was already true, panic (error carries the post-swap
state); otherwise write the message into the slot and store
`is_message_ready = true` (release). -/
def OneshotChannel.send {T : Type} (c : OneshotChannel T) (m : T) :
    Except (OneshotChannel T) (OneshotChannel T) :=
  let old := c.is_message_in_use
  let c' := { c with is_message_in_use := true }
  if old then
    Except.error c'
  else
    Except.ok { c' with message := some m, is_message_ready := true }

/-- Source `OneshotChannel::receive`: swap `is_message_ready` to false
(acquire); if it was already false, panic (error carries the post-swap
state); otherwise `assume_init_read` the slot. The slot read yields
`Option T`: `none` models the undefined-behavior read of an
uninitialized slot, which the checked API never reaches. -/
def OneshotChannel.receive {T : Type} (c : OneshotChannel T) :
    Except (OneshotChannel T) (Option T × OneshotChannel T) :=
  let old := c.is_message_ready
  let c' := { c with is_message_ready := false }
  if !old then
    Except.error c'
  else
    Except.ok (c'.message, c')

/-- Source `impl Drop for OneshotChannel`: if `is_message_ready` is true,
`assume_init_drop` the slot. Result `some s` means exactly one release
call happened and `s` is the slot contents it released (`some s` with
`s = none` would be the undefined-behavior drop of an uninitialized
slot); result `none` means no release call happened. -/
def OneshotChannel.drop {T : Type} (c : OneshotChannel T) : Option (Option T) :=
  if c.is_message_ready then some c.message else none

/-- One checked-API operation on a unified channel, used to talk about
arbitrary usage sequences. -/
inductive ChannelOp (T : Type) : Type where
  | send : T → ChannelOp T
  | recv : ChannelOp T
  | poll : ChannelOp T

/-- Resulting channel state of one operation (on panic, the state at the
panic; the process-level unwinding is not modelled). -/
def OneshotChannel.applyOp {T : Type} (c : OneshotChannel T) :
    ChannelOp T → OneshotChannel T
  | ChannelOp.send v =>
      match c.send v with
      | Except.ok c' => c'
      | Except.error c' => c'
  | ChannelOp.recv =>
      match c.receive with
      | Except.ok p => p.2
      | Except.error c' => c'
  | ChannelOp.poll => (c.load_is_message_ready).2

/-- Channel state after a sequence of checked-API operations. -/
def OneshotChannel.applyOps {T : Type} (c : OneshotChannel T)
    (ops : List (ChannelOp T)) : OneshotChannel T :=
  ops.foldl OneshotChannel.applyOp c

/-- Polling `is_message_ready` a given number of times,
threading the state. -/
def OneshotChannel.pollN {T : Type} : Nat → OneshotChannel T → OneshotChannel T
  | 0, c => c
  | n + 1, c => OneshotChannel.pollN n (c.load_is_message_ready).2

/-! ## Split channel (src/ch5.rs, `channel()` / `Sender<T>` / `Receiver<T>`) -/

/-- Observable effects of a split-channel operation on the shared record:
the raw slot write and the atomic store of the ready flag with its
ordering. -/
inductive ChannelEvent (T : Type) : Type where
  | write_message : T → ChannelEvent T
  | store_is_message_ready : Bool → MemoryOrdering → ChannelEvent T
deriving DecidableEq

/-- Shared record `Channel<T>` of the split variant: the
`UnsafeCell<MaybeUninit<T>>` slot and the single `is_message_ready`
flag. In the source both handles reference it through an `Arc`; here the
handles are modelled as functions acting on this shared state, each
usable once because Rust consumes the handle (a type-level fact with no
runtime content). -/
structure Channel (T : Type) : Type where
  message : Option T
  is_message_ready : Bool
deriving DecidableEq

/-- Source `channel()`: the fresh shared record (uninitialized slot,
flag false) handed to the new `(Sender, Receiver)` pair. -/
def channelNew {T : Type} : Channel T :=
  { message := none, is_message_ready := false }

/-- Source `Sender::send(self, message)`: writes the message into the
slot, then stores `is_message_ready = true` with release ordering. The
returned event list records those two effects in order. -/
def Sender.send {T : Type} (c : Channel T) (m : T) :
    Channel T × List (ChannelEvent T) :=
  ({ c with message := some m, is_message_ready := true },
    [ChannelEvent.write_message m,
      ChannelEvent.store_is_message_ready true MemoryOrdering.Release])

/-- Source `Receiver::is_message_ready`: a relaxed load returning the
current flag and the unmodified shared record. -/
def Receiver.load_is_message_ready {T : Type} (c : Channel T) :
    Bool × Channel T :=
  (c.is_message_ready, c)

/-- Source `Receiver::receive(self)`: swap `is_message_ready` to false
(acquire); panic if it was already false, else `assume_init_read` the
slot (`none` models the undefined-behavior read of an uninitialized
slot). -/
def Receiver.receive {T : Type} (c : Channel T) :
    Except (Channel T) (Option T × Channel T) :=
  let old := c.is_message_ready
  let c' := { c with is_message_ready := false }
  if !old then
    Except.error c'
  else
    Except.ok (c'.message, c')

/-! ## Spin lock (src/ch4.rs) -/

/-- An atomic store event on the `is_locked` flag: the value stored and
the memory ordering used. -/
structure StoreEvent : Type where
  value : Bool
  ordering : MemoryOrdering
deriving DecidableEq

/-- State of `SpinLockFlag`: the single `AtomicBool`. -/
structure SpinLockFlag : Type where
  is_locked : Bool
deriving DecidableEq

/-- Source `SpinLockFlag::new`. -/
def SpinLockFlag.new : SpinLockFlag :=
  { is_locked := false }

/-- Source `SpinLockFlag::unlock`: a single release-ordered store of
`false`, whatever the current state; the event list records exactly the
stores performed. -/
def SpinLockFlag.unlock (_f : SpinLockFlag) : SpinLockFlag × List StoreEvent :=
  ({ is_locked := false },
    [{ value := false, ordering := MemoryOrdering.Release }])

/-- State of `SpinLock<T>` (the safe variant): the flag and the
protected value. -/
structure SpinLock (T : Type) : Type where
  protector : SpinLockFlag
  value : T

/-- Source `SpinLock::new`. -/
def SpinLock.new {T : Type} (value : T) : SpinLock T :=
  { protector := SpinLockFlag.new, value := value }

/-- Source `impl Drop for Guard`: the destructor body is the single call
`self.guarded.protector.unlock()`. Acting on the guarded lock's state,
it returns the updated lock and the store events of that one unlock
call. -/
def Guard.drop {T : Type} (l : SpinLock T) : SpinLock T × List StoreEvent :=
  let u := l.protector.unlock
  ({ l with protector := u.1 }, u.2)

/-! ### Interleaving model of N threads contending on one `SpinLock`

Each thread runs `SpinLock::lock()` once: it spins on
`compare_exchange_weak(false, true, Acquire, Relaxed)` until the CAS
succeeds (phase `spinning`), then owns a `Guard` (phase `holding`), and
dropping the guard stores `false` and finishes the thread (phase
`done`). A scheduler step picks a thread and, for a spinning thread, the
weak CAS may additionally fail spuriously. -/

/-- Phase of one thread contending on the lock. -/
inductive ThreadPhase : Type where
  | spinning : ThreadPhase
  | holding : ThreadPhase
  | done : ThreadPhase
deriving DecidableEq

/-- Global state: the atomic flag and every thread's phase. -/
structure LockSys : Type where
  is_locked : Bool
  phases : List ThreadPhase
deriving DecidableEq

/-- One scheduler choice: `cas t sp` lets thread `t` run one iteration
of the CAS loop (`sp = true` makes the weak CAS fail spuriously);
`release t` lets thread `t` drop its guard. -/
inductive LockAction : Type where
  | cas : Nat → Bool → LockAction
  | release : Nat → LockAction
deriving DecidableEq

/-- One step of the interleaving semantics. A CAS by a spinning thread
succeeds exactly when the flag is `false` and the weak CAS does not fail
spuriously, atomically setting the flag and handing the thread its
guard; a failed CAS leaves the state unchanged (the thread spins on). A
release by a holding thread stores `false` and finishes the thread.
Actions of threads not in the right phase do nothing. -/
def LockSys.step (s : LockSys) : LockAction → LockSys
  | LockAction.cas t sp =>
      if s.phases[t]? = some ThreadPhase.spinning then
        if s.is_locked || sp then s
        else { is_locked := true, phases := s.phases.set t ThreadPhase.holding }
      else s
  | LockAction.release t =>
      if s.phases[t]? = some ThreadPhase.holding then
        { is_locked := false, phases := s.phases.set t ThreadPhase.done }
      else s

/-- Initial state for `n` threads all about to call `lock()` on a fresh
lock. -/
def LockSys.init (n : Nat) : LockSys :=
  { is_locked := false, phases := List.replicate n ThreadPhase.spinning }

/-- State after `k` scheduler steps drawn from `sched`. -/
def LockSys.run (sched : Nat → LockAction) (s : LockSys) : Nat → LockSys
  | 0 => s
  | k + 1 => (LockSys.run sched s k).step (sched k)

/-- Thread `t` currently owns a `Guard`. -/
def LockSys.holdsGuard (s : LockSys) (t : Nat) : Bool :=
  s.phases[t]? == some ThreadPhase.holding

/-- Mutual-exclusion invariant: at most one holder, and no holder when
the flag is clear. -/
def LockSys.Inv (s : LockSys) : Prop :=
  (∀ t u : Nat, s.holdsGuard t = true → s.holdsGuard u = true → t = u) ∧
    (s.is_locked = false → ∀ t : Nat, s.holdsGuard t = false)

/-- The adversarial schedule mirroring the source's `poison_spin_lock`
test: thread 1 acquires first and never releases (its guard is leaked by
the abnormal termination), and thread 0 is left retrying the CAS
forever. -/
def poisonSched : Nat → LockAction
  | 0 => LockAction.cas 1 false
  | _ + 1 => LockAction.cas 0 false

/-- Liveness half of the concurrent-contention claim, for two threads
under the poison schedule: every thread eventually acquires the lock. -/
def EveryThreadEventuallyHolds : Prop :=
  ∀ t : Nat, t < 2 →
    ∃ k : Nat, (LockSys.run poisonSched (LockSys.init 2) k).holdsGuard t = true

end AtomicsBook

namespace AtomicsBook

/-- Helper: rebuilding a `OneshotChannel` from its own fields is the
identity (structure eta). -/
theorem OneshotChannel.eta {T : Type} (c : OneshotChannel T) :
    OneshotChannel.mk c.message c.is_message_in_use c.is_message_ready = c :=
  rfl

/-- Helper: a second `send` on a channel whose in-use flag is set errors
with the state exactly unchanged. -/
theorem OneshotChannel.send_error_of_in_use {T : Type} (c : OneshotChannel T)
    (w : T) (h : c.is_message_in_use = true) : c.send w = Except.error c := by
  have he : ({ c with is_message_in_use := true } : OneshotChannel T) = c := by
    rw [← h]
  simp [OneshotChannel.send, h, he]

/-- Helper: `receive` on a channel whose ready flag is clear errors with
the state exactly unchanged. -/
theorem OneshotChannel.receive_error_of_not_ready {T : Type}
    (c : OneshotChannel T) (h : c.is_message_ready = false) :
    c.receive = Except.error c := by
  have he : ({ c with is_message_ready := false } : OneshotChannel T) = c := by
    rw [← h]
  simp [OneshotChannel.receive, h, he]

/-- Helper: no checked-API operation ever clears `is_message_in_use`. -/
theorem OneshotChannel.applyOp_in_use {T : Type} (c : OneshotChannel T)
    (op : ChannelOp T) (h : c.is_message_in_use = true) :
    (c.applyOp op).is_message_in_use = true := by
  cases op with
  | send v =>
      simp only [OneshotChannel.applyOp, OneshotChannel.send, h, if_true]
  | recv =>
      simp only [OneshotChannel.applyOp, OneshotChannel.receive]
      cases hr : c.is_message_ready <;> simp [hr, h]
  | poll =>
      simpa [OneshotChannel.applyOp, OneshotChannel.load_is_message_ready] using h

/-- Helper: `is_message_in_use`, once set, survives any sequence of
checked-API operations. -/
theorem OneshotChannel.applyOps_in_use {T : Type} (ops : List (ChannelOp T)) :
    ∀ c : OneshotChannel T, c.is_message_in_use = true →
      (c.applyOps ops).is_message_in_use = true := by
  induction ops with
  | nil => intro c h; exact h
  | cons op rest ih =>
      intro c h
      exact ih (c.applyOp op) (c.applyOp_in_use op h)

/-- Helper: polling leaves the channel state untouched. -/
theorem OneshotChannel.pollN_eq {T : Type} (n : Nat) (c : OneshotChannel T) :
    c.pollN n = c := by
  induction n generalizing c with
  | zero => rfl
  | succ m ih => exact ih c

/-- C1: for every payload type and value, a fresh unified channel
round-trips: `send v` succeeds and a subsequent `receive` returns
exactly `v`. -/
theorem oneshot_send_receive_roundtrip (T : Type) (v : T) :
    ∃ c₁ c₂ : OneshotChannel T,
      OneshotChannel.new.send v = Except.ok c₁ ∧
      c₁.receive = Except.ok (some v, c₂) := by
  refine ⟨{ message := some v, is_message_in_use := true, is_message_ready := true },
    { message := some v, is_message_in_use := true, is_message_ready := false }, ?_, ?_⟩ <;>
    rfl

/-- C2: on any unified channel whose in-use flag is already set (which
holds after any call to `send`, successful or not), a second `send`
panics and the whole channel state — the message slot, the
`is_message_ready` flag, and the in-use flag — is exactly unchanged, so
the already-sent value is not corrupted. -/
theorem oneshot_second_send_panics (T : Type) (c : OneshotChannel T) (w : T)
    (h : c.is_message_in_use = true) :
    c.send w = Except.error c :=
  c.send_error_of_in_use w h

/-- Witness for C2 at a concrete post-send state: a second send of `7`
after `5` was sent leaves the channel holding `5`. -/
theorem oneshot_second_send_panics_witness :
    OneshotChannel.send
        { message := some 5, is_message_in_use := true, is_message_ready := true } 7 =
      Except.error
        ({ message := some 5, is_message_in_use := true, is_message_ready := true } :
          OneshotChannel Nat) :=
  oneshot_second_send_panics Nat
    { message := some 5, is_message_in_use := true, is_message_ready := true } 7 rfl

/-- C3: on any unified channel whose ready flag is false (in particular a
fresh one on which no successful send has published a message),
`receive` panics instead of returning a value, and the failed attempt
leaves the whole channel state exactly unchanged. -/
theorem oneshot_receive_before_send_panics (T : Type) (c : OneshotChannel T)
    (h : c.is_message_ready = false) :
    c.receive = Except.error c :=
  c.receive_error_of_not_ready h

/-- Witness for C3 on a fresh channel. -/
theorem oneshot_receive_before_send_panics_witness :
    (OneshotChannel.new : OneshotChannel Nat).receive =
      Except.error OneshotChannel.new :=
  oneshot_receive_before_send_panics Nat OneshotChannel.new rfl

/-- C4: destruction of a unified channel performs a payload release call
exactly when `is_message_ready` is true, and then it is exactly one call
releasing the slot contents: a fresh channel releases nothing; in
general `drop` releases (once) iff the flag is true; after `send v` with
no receive, the single release call frees exactly `v`; after `send v`
then `receive`, nothing is released. -/
theorem oneshot_drop_releases_iff_ready (T : Type) (v : T) :
    (OneshotChannel.new : OneshotChannel T).drop = none ∧
    (∀ c : OneshotChannel T, c.is_message_ready = true → c.drop = some c.message) ∧
    (∀ c : OneshotChannel T, c.is_message_ready = false → c.drop = none) ∧
    (OneshotChannel.new.send v).map OneshotChannel.drop =
      Except.ok (some (some v)) ∧
    ((OneshotChannel.new.send v).bind OneshotChannel.receive).map
        (fun p => OneshotChannel.drop p.2) =
      Except.ok none := by
  refine ⟨rfl, ?_, ?_, rfl, rfl⟩
  · intro c h
    simp [OneshotChannel.drop, h]
  · intro c h
    simp [OneshotChannel.drop, h]

/-- Witness for C4: the flag-directed conjuncts applied at concrete
channel states. -/
theorem oneshot_drop_releases_iff_ready_witness :
    OneshotChannel.drop
        ({ message := some 3, is_message_in_use := true, is_message_ready := true } :
          OneshotChannel Nat) =
      some (some 3) ∧
    OneshotChannel.drop
        ({ message := some 3, is_message_in_use := true, is_message_ready := false } :
          OneshotChannel Nat) =
      none :=
  ⟨(oneshot_drop_releases_iff_ready Nat 3).2.1
      { message := some 3, is_message_in_use := true, is_message_ready := true } rfl,
    (oneshot_drop_releases_iff_ready Nat 3).2.2.1
      { message := some 3, is_message_in_use := true, is_message_ready := false } rfl⟩

/-- C9: the in-use flag is never reset by any sequence of checked-API
operations — once it is set (as after the one successful send, and still
after the message has been received), every later `send` panics: a
consumed channel can never be reused for a second send. -/
theorem oneshot_in_use_never_reset (T : Type) (ops : List (ChannelOp T))
    (c : OneshotChannel T) (w : T) (h : c.is_message_in_use = true) :
    (c.applyOps ops).is_message_in_use = true ∧
    (c.applyOps ops).send w = Except.error (c.applyOps ops) := by
  have hu := OneshotChannel.applyOps_in_use ops c h
  exact ⟨hu, (c.applyOps ops).send_error_of_in_use w hu⟩

/-- Witness for C9: after the message `0` has been sent and then
received, a further send of `1` still panics. -/
theorem oneshot_in_use_never_reset_witness :
    (OneshotChannel.applyOps
          { message := some 0, is_message_in_use := true, is_message_ready := true }
          [ChannelOp.recv]).is_message_in_use = true ∧
    (OneshotChannel.applyOps
          { message := some 0, is_message_in_use := true, is_message_ready := true }
          [ChannelOp.recv]).send 1 =
      Except.error
        (OneshotChannel.applyOps
          { message := some 0, is_message_in_use := true, is_message_ready := true }
          ([ChannelOp.recv] : List (ChannelOp Nat))) :=
  oneshot_in_use_never_reset Nat [ChannelOp.recv]
    { message := some 0, is_message_in_use := true, is_message_ready := true } 1 rfl

/-- Helper: `holdsGuard` unfolded to a propositional lookup. -/
theorem LockSys.holdsGuard_iff (s : LockSys) (t : Nat) :
    s.holdsGuard t = true ↔ s.phases[t]? = some ThreadPhase.holding := by
  simp [LockSys.holdsGuard]

/-- Helper: negative form of `holdsGuard`. -/
theorem LockSys.holdsGuard_eq_false_iff (s : LockSys) (t : Nat) :
    s.holdsGuard t = false ↔ s.phases[t]? ≠ some ThreadPhase.holding := by
  simp [LockSys.holdsGuard]

/-- Helper: a successful lookup bounds the index. -/
theorem LockSys.lt_length_of_getElem?_eq_some {l : List ThreadPhase} {t : Nat}
    {p : ThreadPhase} (h : l[t]? = some p) : t < l.length := by
  by_contra hge
  rw [List.getElem?_eq_none (Nat.le_of_not_lt hge)] at h
  exact Option.noConfusion h

/-- Helper: a lookup in the all-spinning initial phase list never finds
a holder. -/
theorem replicate_spinning_ne_holding (n t : Nat) :
    (List.replicate n ThreadPhase.spinning)[t]? ≠ some ThreadPhase.holding := by
  intro h
  rcases List.getElem?_eq_some.mp h with ⟨hlt, hval⟩
  rw [List.getElem_replicate] at hval
  exact ThreadPhase.noConfusion hval

/-- Helper: the initial state satisfies the mutual-exclusion
invariant. -/
theorem LockSys.inv_init (n : Nat) : (LockSys.init n).Inv := by
  constructor
  · intro t u ht _
    rw [LockSys.holdsGuard_iff] at ht
    exact absurd ht (replicate_spinning_ne_holding n t)
  · intro _ t
    rw [LockSys.holdsGuard_eq_false_iff]
    exact replicate_spinning_ne_holding n t

/-- Helper: every step of the interleaving semantics preserves the
mutual-exclusion invariant. -/
theorem LockSys.inv_step (s : LockSys) (a : LockAction) (h : s.Inv) :
    (s.step a).Inv := by
  cases a with
  | cas t sp =>
      by_cases hp : s.phases[t]? = some ThreadPhase.spinning
      · by_cases hl : (s.is_locked || sp) = true
        · simp only [LockSys.step, hp, if_pos rfl, hl, if_true]
          exact h
        · have hlock : s.is_locked = false := by
            cases hcl : s.is_locked
            · rfl
            · rw [hcl] at hl; simp at hl
          have hlt : t < s.phases.length := LockSys.lt_length_of_getElem?_eq_some hp
          simp only [LockSys.step, hp, if_pos rfl, hl, if_false]
          have key : ∀ u : Nat,
              (LockSys.mk true (s.phases.set t ThreadPhase.holding)).holdsGuard u = true →
                u = t := by
            intro u hu
            rw [LockSys.holdsGuard_iff] at hu
            by_contra hne
            rw [List.getElem?_set_ne (fun he => hne he.symm)] at hu
            have := (h.2 hlock u)
            rw [LockSys.holdsGuard_eq_false_iff] at this
            exact this hu
          constructor
          · intro t' u' ht' hu'
            rw [key t' ht', key u' hu']
          · intro hfalse
            exact Bool.noConfusion hfalse
      · have hs : s.step (LockAction.cas t sp) = s := by
          simp [LockSys.step, hp]
        rw [hs]
        exact h
  | release t =>
      by_cases hp : s.phases[t]? = some ThreadPhase.holding
      · have hlt : t < s.phases.length := LockSys.lt_length_of_getElem?_eq_some hp
        have hs : s.step (LockAction.release t) =
            LockSys.mk false (s.phases.set t ThreadPhase.done) := by
          simp [LockSys.step, hp]
        rw [hs]
        have key : ∀ u : Nat,
            (LockSys.mk false (s.phases.set t ThreadPhase.done)).holdsGuard u = false := by
          intro u
          rw [LockSys.holdsGuard_eq_false_iff]
          intro hu
          by_cases hne : t = u
          · subst hne
            rw [List.getElem?_set_eq_of_lt _ hlt] at hu
            exact ThreadPhase.noConfusion (Option.some.inj hu)
          · rw [List.getElem?_set_ne hne] at hu
            have hut : u = t := by
              refine h.1 u t ?_ ?_ <;> rw [LockSys.holdsGuard_iff]
              · exact hu
              · exact hp
            exact hne hut.symm
        constructor
        · intro t' u' ht' _
          rw [key t'] at ht'
          exact Bool.noConfusion ht'
        · intro _ u
          exact key u
      · rw [LockSys.step, if_neg hp]
        exact h

/-- Helper: every state reachable from `init n` satisfies the
mutual-exclusion invariant. -/
theorem LockSys.inv_run (sched : Nat → LockAction) (n k : Nat) :
    (LockSys.run sched (LockSys.init n) k).Inv := by
  induction k with
  | zero => exact LockSys.inv_init n
  | succ m ih => exact LockSys.inv_step _ (sched m) ih

/-- Helper: from the first step on, the poison schedule freezes the
system with thread 1 holding the lock forever. -/
theorem poison_run_succ (k : Nat) :
    LockSys.run poisonSched (LockSys.init 2) (k + 1) =
      LockSys.mk true [ThreadPhase.spinning, ThreadPhase.holding] := by
  induction k with
  | zero => decide
  | succ m ih =>
      rw [LockSys.run, ih]
      show LockSys.step _ (LockAction.cas 0 false) = _
      decide

/-- C5 (amended, safety half): at every instant of every execution of
any number of threads contending on one `SpinLock`, at most one thread
holds a `Guard` — no double acquisition. -/
theorem spinlock_mutual_exclusion (n : Nat) (sched : Nat → LockAction)
    (k t u : Nat)
    (ht : (LockSys.run sched (LockSys.init n) k).holdsGuard t = true)
    (hu : (LockSys.run sched (LockSys.init n) k).holdsGuard u = true) :
    t = u :=
  (LockSys.inv_run sched n k).1 t u ht hu

/-- Witness for C5: one thread that acquired the fresh lock does hold
the guard, and the mutual-exclusion theorem applies to it. -/
theorem spinlock_mutual_exclusion_witness :
    (LockSys.run (fun _ => LockAction.cas 0 false) (LockSys.init 1) 1).holdsGuard 0
        = true ∧
      (0 : Nat) = 0 :=
  ⟨by decide,
    spinlock_mutual_exclusion 1 (fun _ => LockAction.cas 0 false) 1 0 0
      (by decide) (by decide)⟩

/-- C5 counterexample (liveness half): under the schedule mirroring the
source's `poison_spin_lock` test — thread 1 acquires and never releases,
thread 0 keeps retrying — it is false that every thread eventually
acquires the lock: thread 0 spins forever. -/
theorem spinlock_liveness_counterexample : ¬ EveryThreadEventuallyHolds := by
  intro h
  rcases h 0 (by decide) with ⟨k, hk⟩
  cases k with
  | zero => exact absurd hk (by decide)
  | succ m =>
      rw [poison_run_succ m] at hk
      exact absurd hk (by decide)

/-- C6: a `lock()` call on an `Unlocked` flag succeeds at its next CAS
iteration — the flag becomes `Locked` and the caller gets its `Guard`
(the call never fails and never returns an absent guard); and if the
flag is `Locked` and no holder ever releases it, the system state is
unchanged after any number of scheduler steps, so a spinning thread
stays spinning forever — unbounded spinning, the call does not
return. -/
theorem spinlock_lock_acquires_or_spins :
    (∀ (s : LockSys) (t : Nat), s.is_locked = false →
      s.phases[t]? = some ThreadPhase.spinning →
      (s.step (LockAction.cas t false)).holdsGuard t = true ∧
        (s.step (LockAction.cas t false)).is_locked = true) ∧
    (∀ sched : Nat → LockAction, (∀ k t : Nat, sched k ≠ LockAction.release t) →
      ∀ s : LockSys, s.is_locked = true →
        ∀ k : Nat, LockSys.run sched s k = s) := by
  constructor
  · intro s t hl hp
    have hlt : t < s.phases.length := LockSys.lt_length_of_getElem?_eq_some hp
    have hs : s.step (LockAction.cas t false) =
        LockSys.mk true (s.phases.set t ThreadPhase.holding) := by
      simp [LockSys.step, hp, hl]
    rw [hs]
    refine ⟨?_, rfl⟩
    rw [LockSys.holdsGuard_iff]
    exact List.getElem?_set_eq_of_lt _ hlt
  · intro sched hrel s hl k
    induction k with
    | zero => rfl
    | succ m ih =>
        rw [LockSys.run, ih]
        cases ha : sched m with
        | cas t sp =>
            by_cases hp : s.phases[t]? = some ThreadPhase.spinning
            · simp [LockSys.step, hp, hl]
            · simp [LockSys.step, hp]
        | release t => exact absurd ha (hrel m t)

/-- Witness for C6: with one thread and a fresh lock the first CAS
acquires, and a lock held with no release scheduled is unchanged after
five steps. -/
theorem spinlock_lock_acquires_or_spins_witness :
    (LockSys.init 1).is_locked = false ∧
    (LockSys.init 1).phases[0]? = some ThreadPhase.spinning ∧
    ((LockSys.init 1).step (LockAction.cas 0 false)).holdsGuard 0 = true ∧
    LockSys.run (fun _ => LockAction.cas 0 false)
        (LockSys.mk true [ThreadPhase.spinning]) 5 =
      LockSys.mk true [ThreadPhase.spinning] :=
  ⟨rfl, by decide,
    (spinlock_lock_acquires_or_spins.1 (LockSys.init 1) 0 rfl (by decide)).1,
    spinlock_lock_acquires_or_spins.2 (fun _ => LockAction.cas 0 false)
      (fun _ t h => LockAction.noConfusion h)
      (LockSys.mk true [ThreadPhase.spinning]) rfl 5⟩

/-- C7: dropping a `Guard` performs exactly one unlock call: a single
release-ordered store of `false`, leaving the flag `Unlocked` and the
protected value untouched, whatever the prior state. -/
theorem guard_drop_single_release_store (T : Type) (l : SpinLock T) :
    Guard.drop l =
      ({ protector := { is_locked := false }, value := l.value },
        [{ value := false, ordering := MemoryOrdering.Release }]) :=
  rfl

/-- C8: on the fresh shared record made by `channel()`, `Sender::send v`
writes `v` into the slot and then stores the ready flag `true` with
release ordering (exactly those two effects, in that order), and a
subsequent `Receiver::receive` returns exactly `v`. -/
theorem split_send_receive_roundtrip (T : Type) (v : T) :
    (Sender.send (channelNew : Channel T) v).1 =
      { message := some v, is_message_ready := true } ∧
    (Sender.send (channelNew : Channel T) v).2 =
      [ChannelEvent.write_message v,
        ChannelEvent.store_is_message_ready true MemoryOrdering.Release] ∧
    Receiver.receive (Sender.send (channelNew : Channel T) v).1 =
      Except.ok (some v, { message := some v, is_message_ready := false }) :=
  ⟨rfl, rfl, rfl⟩

/-- C10: polling the readiness flag is side-effect-free in both
variants: the unified channel's and the receiver's `is_message_ready`
loads return the current flag value and the unchanged state, and
polling any number of times changes neither a later `receive` nor the
destructor's release decision. -/
theorem is_message_ready_side_effect_free (T : Type) :
    (∀ c : OneshotChannel T, c.load_is_message_ready = (c.is_message_ready, c)) ∧
    (∀ c : Channel T,
      Receiver.load_is_message_ready c = (c.is_message_ready, c)) ∧
    (∀ (n : Nat) (c : OneshotChannel T), c.pollN n = c) ∧
    (∀ (n : Nat) (c : OneshotChannel T),
      (c.pollN n).receive = c.receive ∧ (c.pollN n).drop = c.drop) := by
  refine ⟨fun c => rfl, fun c => rfl, fun n c => OneshotChannel.pollN_eq n c,
    fun n c => ?_⟩
  rw [OneshotChannel.pollN_eq]
  exact ⟨rfl, rfl⟩

end AtomicsBook
